import Mathlib

/-!
Shallow embedding of the interactive state-machine parts of the
`yew-bootstrap` component library: the `Tooltip` component
(`src/component/tooltip.rs`), the `DropdownMenu` component
(`src/component/dropdown.rs`) and the placement conversion
(`src/util/placement.rs`).

Machine conventions of the embedding:
* Yew `use_state_eq` cells become explicit state records threaded through
  pure functions; `Callback`s become state transformers.
* A render of a function component becomes a pure function from the
  component properties and the current hook state to a record of the
  state after the render's `set` calls together with the values that the
  render writes into the DOM (class list, `data-show`, `aria-describedby`).
* `spawn_local` tasks become explicit action lists; an effect becomes a
  function from its dependencies to the list of actions it performs, and
  a run of the component becomes a trace that tags every action with the
  value of the show signal at the render that scheduled it (single
  threaded microtask semantics: a spawned task starts before any later
  render can change the signal).
* `panic!` becomes an explicit `panicMsg` field of the handler result;
  DOM nodes become records of the identity and dynamic-cast facts the
  handlers query (`dyn_into`, `dyn_ref`, `query_selector_all` results).
-/

namespace YewBootstrap

/-- `util::Placement` from `src/util/placement.rs`. -/
inductive Placement
  | auto
  | top
  | bottom
  | left
  | right
deriving DecidableEq, Repr

/-- `popper_rs` placement type (`Placement as PopperPlacement`), the
variants this repository uses. -/
inductive PopperPlacement
  | auto
  | top
  | bottom
  | left
  | right
  | bottomStart
deriving DecidableEq, Repr

/-- `impl From<Placement> for PopperPlacement` in `src/util/placement.rs`. -/
def Placement.toPopper : Placement → PopperPlacement
  | .auto => .auto
  | .bottom => .bottom
  | .left => .left
  | .right => .right
  | .top => .top

/-- `popper_rs::modifier::Offset`. -/
structure Offset where
  skidding : Int
  distance : Int
deriving DecidableEq, Repr

/-- `popper_rs::modifier::Modifier`, the variants this repository uses. -/
inductive Modifier
  | offset (o : Offset)
deriving DecidableEq, Repr

/-- `popper_rs::options::Strategy`. -/
inductive Strategy
  | absolute
  | fixed
deriving DecidableEq, Repr

/-- `popper_rs::options::Options`, restricted to the fields this
repository sets (the rest are `..Default::default()`). -/
structure Options where
  placement : PopperPlacement
  modifiers : List Modifier
  strategy : Strategy
deriving DecidableEq, Repr

/-- The `Options` value the `Tooltip` memoizes for popper
(`tooltip.rs` lines 150-158). -/
def tooltipOptions (placement : Placement) : Options :=
  { placement := placement.toPopper
    modifiers := [Modifier.offset { skidding := 0, distance := 8 }]
    strategy := .absolute }

/-- The `Options` value the `DropdownMenu` memoizes for popper
(`dropdown.rs` lines 48-56); its placement property is already a popper
placement, and `(*placement).into()` is the identity. -/
def dropdownOptions (placement : PopperPlacement) : Options :=
  { placement := placement
    modifiers := [Modifier.offset { skidding := 0, distance := 2 }]
    strategy := .absolute }

/-- Default of `DropdownMenuProps::placement`:
`#[prop_or(PopperPlacement::BottomStart)]` (`dropdown.rs` line 28). -/
def dropdownDefaultPlacement : PopperPlacement := .bottomStart

/-- `TooltipProps` (`tooltip.rs` lines 19-107). The `show` property is
named `showProp` because `show` is a Lean keyword. -/
structure TooltipProps where
  id : Option String
  placement : Placement
  fade : Bool
  showProp : Bool
  trigger_on_focus : Bool
  trigger_on_hover : Bool
  disabled : Bool
deriving DecidableEq, Repr

/-- Defaults of the `TooltipProps` fields: `#[prop_or_default]` for all
but the triggers, which are `#[prop_or(true)]`. -/
def TooltipProps.default : TooltipProps :=
  { id := none
    placement := .auto
    fade := false
    showProp := false
    trigger_on_focus := true
    trigger_on_hover := true
    disabled := false }

/-- The two `use_state_eq` booleans of the `Tooltip`
(`tooltip.rs` lines 162-163). -/
structure TooltipState where
  focused : Bool
  hovered : Bool
deriving DecidableEq, Repr

/-- The `onshow` callback (`tooltip.rs` lines 165-175): `"mouseenter"`
sets `hovered`, `"focusin"` sets `focused`, anything else returns. -/
def onshow (st : TooltipState) (evtType : String) : TooltipState :=
  match evtType with
  | "mouseenter" => { st with hovered := true }
  | "focusin" => { st with focused := true }
  | _ => st

/-- The `onhide` callback (`tooltip.rs` lines 177-187): `"mouseleave"`
clears `hovered`, `"focusout"` clears `focused`, anything else returns. -/
def onhide (st : TooltipState) (evtType : String) : TooltipState :=
  match evtType with
  | "mouseleave" => { st with hovered := false }
  | "focusout" => { st with focused := false }
  | _ => st

/-- The listener wiring (`tooltip.rs` lines 221-248): `show_listener`
(which emits to `onshow`) is registered for `focusin` and `mouseenter`,
`hide_listener` (which emits to `onhide`) for `focusout` and
`mouseleave`; each listener forwards the event type string. -/
def dispatchEvent (st : TooltipState) (evtType : String) : TooltipState :=
  if evtType = "focusin" ∨ evtType = "mouseenter" then onshow st evtType
  else if evtType = "focusout" ∨ evtType = "mouseleave" then onhide st evtType
  else st

/-- The `aria-describedby` synchronization effect
(`tooltip.rs` lines 274-290): `some i` means the attribute is set to
`i`, `none` means it is removed. -/
def ariaDescribedby (tooltip_id : Option String) (showSignal : Bool) :
    Option String :=
  match tooltip_id, showSignal with
  | some i, true => some i
  | _, _ => none

/-- What one render of `Tooltip` computes: the hook state after the
render's `set` calls, the show signal, and the DOM-visible outputs. -/
structure TooltipView where
  state : TooltipState
  showSignal : Bool
  data_show : Option String
  cls : List String
  aria : Option String
deriving DecidableEq, Repr

/-- One render of the `Tooltip` function component
(`tooltip.rs` lines 189-200 and 274-298), as a pure function of the
properties and the hook state at the start of the render.

* lines 189-194: when `disabled`, both state cells are set to `false`
  (a `UseStateHandle::set` does not change the dereferenced value within
  the same render, so the show signal still reads the old state);
* lines 196-200: the show signal and `data-show`;
* lines 292-298: the class list `tooltip bs-tooltip-auto [fade] [show]`;
* lines 274-290: the `aria-describedby` attribute. -/
def tooltipRender (props : TooltipProps) (st : TooltipState) : TooltipView :=
  let stAfter := if props.disabled then { focused := false, hovered := false } else st
  let showSignal := !props.disabled
      && (props.showProp
        || (st.focused && props.trigger_on_focus)
        || (st.hovered && props.trigger_on_hover))
  { state := stAfter
    showSignal := showSignal
    data_show := if showSignal then some "" else none
    cls := ["tooltip", "bs-tooltip-auto"]
      ++ (if props.fade then ["fade"] else [])
      ++ (if showSignal then ["show"] else [])
    aria := ariaDescribedby props.id showSignal }

/-- An event arrives (through `dispatchEvent`) and the component
re-renders with unchanged properties. -/
def tooltipStep (props : TooltipProps) (st : TooltipState) (evtType : String) :
    TooltipState :=
  (tooltipRender props (dispatchEvent st evtType)).state

/-- A run of the `Tooltip`: initial render from the initial hook state
`(false, false)`, then one step per trigger event. -/
def runTooltip (props : TooltipProps) (events : List String) : TooltipState :=
  events.foldl (tooltipStep props) (tooltipRender props ⟨false, false⟩).state

/-! ## DropdownMenu (`src/component/dropdown.rs`) -/

/-- `DropdownCloseRequest` (`dropdown.rs` lines 11-16). -/
inductive DropdownCloseRequest
  | click
  | escapeKey
  | focusLoss
deriving DecidableEq, Repr

/-- A DOM node as the dropdown handlers observe it: an identity (for the
`==` comparisons), and the outcomes of its dynamic casts
(`dyn_into::<HtmlElement>`, `dyn_ref::<HtmlInputElement>`,
`dyn_ref::<HtmlTextAreaElement>`). -/
structure DomNode where
  nodeId : Nat
  isHtmlElement : Bool
  isInput : Bool
  isTextArea : Bool
deriving DecidableEq, Repr

/-- A `web_sys::KeyboardEvent` as `onkeydown` observes it. -/
structure KeyboardEvt where
  key : String
  target : Option DomNode
deriving DecidableEq, Repr

/-- `char::to_ascii_lowercase`. -/
def asciiLower (c : Char) : Char :=
  if 'A' ≤ c ∧ c ≤ 'Z' then Char.ofNat (c.toNat + 32) else c

/-- `str::eq_ignore_ascii_case`: equality after ASCII-lowercasing. -/
def eqIgnoreAsciiCase (a b : String) : Bool :=
  a.data.map asciiLower == b.data.map asciiLower

/-- Everything `onkeydown` does before returning (or panicking):
whether `prevent_default` ran, which close request was emitted, which
focusable received focus, and the message of the `panic!` if one fired
(`none` means the handler returned). -/
structure KeydownResult where
  defaultPrevented : Bool
  closeRequest : Option DropdownCloseRequest
  focusTo : Option Nat
  panicMsg : Option String
deriving DecidableEq, Repr

/-- The result of the early-return paths that do nothing. -/
def ignoredResult : KeydownResult :=
  { defaultPrevented := false, closeRequest := none, focusTo := none
    panicMsg := none }

/-- The `current_pos` search loop (`dropdown.rs` lines 206-220):
`current_pos` starts at `0`; for each node in order, a node that is not
an `HtmlElement` panics (`.error`), the first node equal to the event
target sets `current_pos` to its index and breaks; if no node matches,
`current_pos` stays `0`. `i` is the index of the head of the remaining
list. -/
def findCurrentPos (targetId : Nat) : Nat → List DomNode → Except String Nat
  | _, [] => .ok 0
  | i, d :: rest =>
    if d.isHtmlElement = false then .error ("not html element? " ++ toString i)
    else if d.nodeId = targetId then .ok i
    else findCurrentPos targetId (i + 1) rest

/-- The arrow-key tail of `onkeydown` (`dropdown.rs` lines 194-240):
list the focusables, panic when there are none, locate `current_pos`,
pick the previous/next index with wraparound, and focus it (panicking on
a missing node or a node that is not an `HtmlElement`). -/
def arrowNavigate (focusables : List DomNode) (targetId : Nat)
    (isArrowUp : Bool) : KeydownResult :=
  let n := focusables.length
  if n = 0 then
    { defaultPrevented := true, closeRequest := none, focusTo := none
      panicMsg := some "no focusables" }
  else match findCurrentPos targetId 0 focusables with
  | .error msg =>
    { defaultPrevented := true, closeRequest := none, focusTo := none
      panicMsg := some msg }
  | .ok current_pos =>
    let i := if isArrowUp then
        if current_pos = 0 then n - 1 else current_pos - 1
      else
        if current_pos ≥ n - 1 then 0 else current_pos + 1
    match focusables.get? i with
    | none =>
      { defaultPrevented := true, closeRequest := none, focusTo := none
        panicMsg := some ("not node " ++ toString i) }
    | some f =>
      if f.isHtmlElement = false then
        { defaultPrevented := true, closeRequest := none, focusTo := none
          panicMsg := some ("not html element? " ++ toString i) }
      else
        { defaultPrevented := true, closeRequest := none
          focusTo := some i, panicMsg := none }

/-- The `onkeydown` callback (`dropdown.rs` lines 159-242).
`shown` is the `use_state_eq` flag, `dropdownElem` the result of
`dropdown_ref.cast::<HtmlElement>()`, `focusables` the node list yielded
by `query_selector_all(":scope .dropdown-item:not(.disabled):not(:disabled)")`. -/
def onkeydownD (shown : Bool) (dropdownElem : Option Nat)
    (focusables : List DomNode) (evt : KeyboardEvt) : KeydownResult :=
  if shown = false then ignoredResult
  else match evt.target with
  | none => ignoredResult
  | some target =>
    if target.isHtmlElement = false then ignoredResult
    else
      let isEscape := eqIgnoreAsciiCase evt.key "Escape"
      let isArrowUp := eqIgnoreAsciiCase evt.key "ArrowUp"
      let isArrowDown := eqIgnoreAsciiCase evt.key "ArrowDown"
      if if target.isInput || target.isTextArea then isEscape = false
         else (isEscape || isArrowDown || isArrowUp) = false then
        ignoredResult
      else if isEscape then
        { defaultPrevented := true, closeRequest := some .escapeKey
          focusTo := none, panicMsg := none }
      else match dropdownElem with
      | none =>
        { defaultPrevented := true, closeRequest := none, focusTo := none
          panicMsg := none }
      | some _ => arrowNavigate focusables target.nodeId isArrowUp

/-- The related target of a `focusout` event as `onfocusout` observes
it: identity, whether `dyn_into::<Node>` succeeds, and whether
`dropdown_elem.contains(Some(&target))` holds. -/
structure RelatedTarget where
  nodeId : Nat
  isNode : Bool
  containedInDropdown : Bool
deriving DecidableEq, Repr

/-- The `onfocusout` callback (`dropdown.rs` lines 136-157), returning
the close request it emits, if any. `dropdownElem` is
`dropdown_ref.get()` (the dropdown element's identity). -/
def onfocusoutD (dropdownElem : Option Nat)
    (relatedTarget : Option RelatedTarget) : Option DropdownCloseRequest :=
  match dropdownElem with
  | none => none
  | some dId =>
    match relatedTarget with
    | some t =>
      if t.isNode = false then none
      else if t.nodeId ≠ dId ∧ t.containedInDropdown = false then
        some .focusLoss
      else none
    | none => some .focusLoss

/-! ## Effects calling the positioning engine -/

/-- Action of the `Tooltip` show effect. -/
inductive PopperAction
  | update
deriving DecidableEq, Repr

/-- The `Tooltip` show effect (`tooltip.rs` lines 202-210): when the
show signal is true it spawns a task that calls `popper.update()`;
otherwise it does nothing. -/
def tooltipShowEffect (showSignal : Bool) : List PopperAction :=
  if showSignal then [.update] else []

/-- Actions of the `DropdownMenu` show effect. -/
inductive DropdownAction
  | popperUpdate
  | setShown (b : Bool)
deriving DecidableEq, Repr

/-- The `DropdownMenu` show effect (`dropdown.rs` lines 244-259): when
`show` is true it spawns a task that awaits `popper.update()` and then
sets `shown` to true (in that order); when `show` is false it sets
`shown` to false synchronously. -/
def dropdownShowEffect (showProp : Bool) : List DropdownAction :=
  if showProp then [.popperUpdate, .setShown true] else [.setShown false]

/-- Trace of the `Tooltip` show effect over a sequence of renders, each
with a show-signal value. The effect re-runs exactly when its dependency
changed (`use_effect_with`), and every action it performs is tagged with
the show signal of the scheduling render (the spawned task starts before
any later render can change the signal). -/
def tooltipEffectTrace : Bool → List Bool → List (Bool × PopperAction)
  | _, [] => []
  | prev, s :: rest =>
    (if s ≠ prev then (tooltipShowEffect s).map (fun a => (s, a)) else [])
      ++ tooltipEffectTrace s rest

/-- Trace of the `DropdownMenu` show effect, same conventions. -/
def dropdownEffectTrace : Bool → List Bool → List (Bool × DropdownAction)
  | _, [] => []
  | prev, s :: rest =>
    (if s ≠ prev then (dropdownShowEffect s).map (fun a => (s, a)) else [])
      ++ dropdownEffectTrace s rest

/-! ## Theorems -/

/-- C1: for every render of the `Tooltip`, the computed show signal
equals: not `disabled` and (the explicit `show` property, or `focused`
with `trigger_on_focus`, or `hovered` with `trigger_on_hover`); in
particular `disabled = true` yields a hidden tooltip regardless of every
other property and of the trigger state. -/
theorem tooltip_show_signal (props : TooltipProps) (st : TooltipState) :
    (tooltipRender props st).showSignal
      = (!props.disabled
        && (props.showProp
          || (st.focused && props.trigger_on_focus)
          || (st.hovered && props.trigger_on_hover)))
    ∧ (props.disabled = true → (tooltipRender props st).showSignal = false) := by
  refine ⟨rfl, fun h => ?_⟩
  simp [tooltipRender, h]

/-- Witness for C1: a disabled tooltip with every trigger active is
hidden. -/
theorem tooltip_show_signal_witness :
    (tooltipRender
        { TooltipProps.default with disabled := true, showProp := true }
        ⟨true, true⟩).showSignal = false :=
  (tooltip_show_signal _ ⟨true, true⟩).2 rfl

/-- C3: the focus/hover event aggregator maps `focusin` to
`focused := true`, `focusout` to `focused := false`, `mouseenter` to
`hovered := true`, `mouseleave` to `hovered := false`, and leaves the
state unchanged on every other event type. -/
theorem tooltip_event_aggregator (st : TooltipState) :
    dispatchEvent st "focusin" = { st with focused := true }
    ∧ dispatchEvent st "focusout" = { st with focused := false }
    ∧ dispatchEvent st "mouseenter" = { st with hovered := true }
    ∧ dispatchEvent st "mouseleave" = { st with hovered := false }
    ∧ ∀ t : String, t ≠ "focusin" → t ≠ "focusout" → t ≠ "mouseenter" →
        t ≠ "mouseleave" → dispatchEvent st t = st := by
  refine ⟨rfl, rfl, rfl, rfl, fun t h1 h2 h3 h4 => ?_⟩
  simp [dispatchEvent, h1, h2, h3, h4]

/-- Witness for C3: a `keydown` event leaves the flags unchanged. -/
theorem tooltip_event_aggregator_witness :
    dispatchEvent ⟨true, false⟩ "keydown" = ⟨true, false⟩ :=
  (tooltip_event_aggregator ⟨true, false⟩).2.2.2.2 "keydown"
    (by decide) (by decide) (by decide) (by decide)

/-- C10: after any render in which `disabled` is true, both internal
trigger flags are reset to `false`, so re-enabling cannot show the
tooltip from stale focus or hover state. -/
theorem tooltip_disabled_resets_state (props : TooltipProps)
    (st : TooltipState) (h : props.disabled = true) :
    (tooltipRender props st).state = { focused := false, hovered := false } := by
  simp [tooltipRender, h]

/-- Witness for C10: a disabled render from state `(true, true)` resets
to `(false, false)`. -/
theorem tooltip_disabled_resets_state_witness :
    (tooltipRender { TooltipProps.default with disabled := true }
        ⟨true, true⟩).state = { focused := false, hovered := false } :=
  tooltip_disabled_resets_state _ ⟨true, true⟩ rfl

/-- C7: the visibility state machine is deterministic: two runs of the
`Tooltip` with equal property values and the same sequence of trigger
events end in equal `focused`/`hovered` flags and an equal show signal
(the state is exactly these booleans, as the embedding's state type). -/
theorem tooltip_deterministic (p1 p2 : TooltipProps)
    (es1 es2 : List String) (hp : p1 = p2) (he : es1 = es2) :
    runTooltip p1 es1 = runTooltip p2 es2
    ∧ (tooltipRender p1 (runTooltip p1 es1)).showSignal
      = (tooltipRender p2 (runTooltip p2 es2)).showSignal := by
  subst hp; subst he; exact ⟨rfl, rfl⟩

/-- Witness for C7: two identically-configured runs over
`[focusin, mouseenter]` agree. -/
theorem tooltip_deterministic_witness :
    runTooltip TooltipProps.default ["focusin", "mouseenter"]
      = runTooltip TooltipProps.default ["focusin", "mouseenter"]
    ∧ (tooltipRender TooltipProps.default
        (runTooltip TooltipProps.default ["focusin", "mouseenter"])).showSignal
      = (tooltipRender TooltipProps.default
        (runTooltip TooltipProps.default ["focusin", "mouseenter"])).showSignal :=
  tooltip_deterministic _ _ _ _ rfl rfl

/-- C6: the popper options are built from the placement preference and
an `Offset` modifier: the `Tooltip` converts its placement property and
uses skidding 0, distance 8 under the absolute strategy; the
`DropdownMenu` uses distance 2 with default placement `BottomStart`;
and the placement conversion maps each variant to its namesake. -/
theorem popper_options_spec :
    (∀ p : Placement, tooltipOptions p
      = { placement := p.toPopper
          modifiers := [Modifier.offset { skidding := 0, distance := 8 }]
          strategy := .absolute })
    ∧ (∀ q : PopperPlacement, dropdownOptions q
      = { placement := q
          modifiers := [Modifier.offset { skidding := 0, distance := 2 }]
          strategy := .absolute })
    ∧ dropdownDefaultPlacement = .bottomStart
    ∧ Placement.auto.toPopper = .auto
    ∧ Placement.top.toPopper = .top
    ∧ Placement.bottom.toPopper = .bottom
    ∧ Placement.left.toPopper = .left
    ∧ Placement.right.toPopper = .right :=
  ⟨fun _ => rfl, fun _ => rfl, rfl, rfl, rfl, rfl, rfl, rfl⟩

/-- C4: the DOM attributes track the show signal: `aria-describedby` is
set to the tooltip id exactly when the id property is present and the
show signal is true (and removed otherwise), the root class list
contains `show` exactly when the show signal is true, and contains
`fade` exactly when the `fade` property is true. -/
theorem tooltip_dom_sync (props : TooltipProps) (st : TooltipState) :
    ((tooltipRender props st).aria
      = if props.id.isSome = true ∧ (tooltipRender props st).showSignal = true
        then props.id else none)
    ∧ ("show" ∈ (tooltipRender props st).cls
        ↔ (tooltipRender props st).showSignal = true)
    ∧ ("fade" ∈ (tooltipRender props st).cls ↔ props.fade = true) := by
  have hs : (tooltipRender props st).showSignal
      = (!props.disabled
        && (props.showProp
          || (st.focused && props.trigger_on_focus)
          || (st.hovered && props.trigger_on_hover))) := rfl
  cases hid : props.id <;> cases hf : props.fade <;>
    cases hb : (!props.disabled
        && (props.showProp
          || (st.focused && props.trigger_on_focus)
          || (st.hovered && props.trigger_on_hover))) <;>
    simp [tooltipRender, ariaDescribedby, hid, hf, hb]

/-- In a tooltip effect trace, every scheduled popper action carries a
true show signal. -/
theorem tooltipEffectTrace_shown (prev : Bool) (renders : List Bool)
    (p : Bool × PopperAction) (hp : p ∈ tooltipEffectTrace prev renders) :
    p.1 = true := by
  induction renders generalizing prev with
  | nil => simp [tooltipEffectTrace] at hp
  | cons s rest ih =>
    rw [tooltipEffectTrace] at hp
    rcases List.mem_append.mp hp with h | h
    · split at h
      · cases s with
        | false => simp [tooltipShowEffect] at h
        | true =>
          simp [tooltipShowEffect] at h
          simp [h]
      · simp at h
    · exact ih s h

/-- In a dropdown effect trace, every scheduled `popper.update` carries
a true show value (the `setShown` actions may carry either). -/
theorem dropdownEffectTrace_shown (prev : Bool) (renders : List Bool)
    (p : Bool × DropdownAction) (hp : p ∈ dropdownEffectTrace prev renders)
    (hu : p.2 = DropdownAction.popperUpdate) : p.1 = true := by
  induction renders generalizing prev with
  | nil => simp [dropdownEffectTrace] at hp
  | cons s rest ih =>
    rw [dropdownEffectTrace] at hp
    rcases List.mem_append.mp hp with h | h
    · split at h
      · cases s with
        | false =>
          simp [dropdownShowEffect] at h
          rw [h] at hu
          simp at hu
        | true =>
          simp [dropdownShowEffect] at h
          rcases h with h | h
          · simp [h]
          · rw [h] at hu
            simp at hu
      · simp at h
    · exact ih s h

/-- At every false-to-true transition of the show signal (the render
shows true and the signal just before it — `prev` for the first render,
the preceding render otherwise — is false), the tooltip effect
schedules a `popper.update`. -/
theorem tooltipEffectTrace_update_on_rise (prev : Bool)
    (pre post : List Bool) (h : (pre.getLast?).getD prev = false) :
    (true, PopperAction.update)
      ∈ tooltipEffectTrace prev (pre ++ true :: post) := by
  induction pre generalizing prev with
  | nil =>
    simp at h
    subst h
    rw [List.nil_append, tooltipEffectTrace]
    apply List.mem_append_left
    simp [tooltipShowEffect]
  | cons a pre' ih =>
    rw [List.cons_append, tooltipEffectTrace]
    apply List.mem_append_right
    apply ih a
    cases pre' with
    | nil => simpa using h
    | cons b l =>
      rw [List.getLast?_cons_cons] at h
      obtain ⟨x, hx⟩ := Option.isSome_iff_exists.mp
        (List.getLast?_isSome.mpr (List.cons_ne_nil b l))
      rw [hx] at h ⊢
      exact h

/-- The dropdown analogue: every false-to-true transition of the `show`
property schedules a `popper.update`. -/
theorem dropdownEffectTrace_update_on_rise (prev : Bool)
    (pre post : List Bool) (h : (pre.getLast?).getD prev = false) :
    (true, DropdownAction.popperUpdate)
      ∈ dropdownEffectTrace prev (pre ++ true :: post) := by
  induction pre generalizing prev with
  | nil =>
    simp at h
    subst h
    rw [List.nil_append, dropdownEffectTrace]
    apply List.mem_append_left
    simp [dropdownShowEffect]
  | cons a pre' ih =>
    rw [List.cons_append, dropdownEffectTrace]
    apply List.mem_append_right
    apply ih a
    cases pre' with
    | nil => simpa using h
    | cons b l =>
      rw [List.getLast?_cons_cons] at h
      obtain ⟨x, hx⟩ := Option.isSome_iff_exists.mp
        (List.getLast?_isSome.mpr (List.cons_ne_nil b l))
      rw [hx] at h ⊢
      exact h

/-- C5: whenever the show signal becomes true — at every render showing
true whose preceding signal value is false, in any render sequence —
the effect schedules a `popper.update`, in the `Tooltip` and in the
`DropdownMenu` alike; a render with show false schedules none, so
update is never invoked under a false signal; and in the
`DropdownMenu`, the spawned task sets `shown` to true only after the
update action, while a render with show false sets `shown` to false
synchronously. -/
theorem effect_update_only_when_shown :
    (∀ (prev : Bool) (renders : List Bool) (p : Bool × PopperAction),
        p ∈ tooltipEffectTrace prev renders → p.1 = true)
    ∧ (∀ (prev : Bool) (pre post : List Bool),
        (pre.getLast?).getD prev = false →
        (true, PopperAction.update)
          ∈ tooltipEffectTrace prev (pre ++ true :: post))
    ∧ (∀ (prev : Bool) (pre post : List Bool),
        (pre.getLast?).getD prev = false →
        (true, DropdownAction.popperUpdate)
          ∈ dropdownEffectTrace prev (pre ++ true :: post))
    ∧ (∀ (prev : Bool) (renders : List Bool) (p : Bool × DropdownAction),
        p ∈ dropdownEffectTrace prev renders →
        p.2 = DropdownAction.popperUpdate → p.1 = true)
    ∧ (∀ i : Nat,
        (dropdownShowEffect true).get? i = some (DropdownAction.setShown true) →
        ∃ j, j < i ∧ (dropdownShowEffect true).get? j
          = some DropdownAction.popperUpdate)
    ∧ dropdownShowEffect false = [DropdownAction.setShown false] := by
  refine ⟨tooltipEffectTrace_shown, tooltipEffectTrace_update_on_rise,
    dropdownEffectTrace_update_on_rise, dropdownEffectTrace_shown, ?_, rfl⟩
  intro i h
  match i with
  | 0 => simp [dropdownShowEffect] at h
  | 1 => exact ⟨0, Nat.zero_lt_one, rfl⟩
  | n + 2 => simp [dropdownShowEffect, List.get?] at h

/-- Witness for C5: in the render sequence `[false, true, false, true]`
started from a false signal, the rise at the last render schedules an
update tagged with a true signal, in both components; the dropdown
`setShown true` at index 1 is preceded by the update at index 0. -/
theorem effect_update_only_when_shown_witness :
    ((true, PopperAction.update)).1 = true
    ∧ (true, PopperAction.update)
        ∈ tooltipEffectTrace false ([false, true, false] ++ true :: [])
    ∧ (true, DropdownAction.popperUpdate)
        ∈ dropdownEffectTrace false ([false, true, false] ++ true :: [])
    ∧ ∃ j, j < 1 ∧ (dropdownShowEffect true).get? j
        = some DropdownAction.popperUpdate :=
  ⟨effect_update_only_when_shown.1 false [true] _ (by decide),
   effect_update_only_when_shown.2.1 false [false, true, false] [] (by decide),
   effect_update_only_when_shown.2.2.1 false [false, true, false] [] (by decide),
   effect_update_only_when_shown.2.2.2.2.1 1 rfl⟩

/-- When every node casts to `HtmlElement` and index `i` holds the first
node equal to the target, the `current_pos` loop finds `i` (offset by
the starting index `k`). -/
theorem findCurrentPos_spec (tid : Nat) (l : List DomNode) :
    ∀ (k i : Nat), (∀ d ∈ l, d.isHtmlElement = true) →
      ∀ (hi : i < l.length), l[i].nodeId = tid →
      (∀ j (hj : j < l.length), j < i → l[j].nodeId ≠ tid) →
      findCurrentPos tid k l = .ok (k + i) := by
  induction l with
  | nil =>
    intro k i _ hi
    simp at hi
  | cons d rest ih =>
    intro k i hall hi hhit hfirst
    have hd : d.isHtmlElement = true := hall d (by simp)
    cases i with
    | zero =>
      have hd0 : d.nodeId = tid := by simpa using hhit
      simp [findCurrentPos, hd, hd0]
    | succ m =>
      have hdne : d.nodeId ≠ tid := by
        have := hfirst 0 (by simp) (Nat.succ_pos m)
        simpa using this
      have hm : m < rest.length := by simpa using hi
      have hrest := ih (k + 1) m
        (fun x hx => hall x (by simp [hx]))
        hm (by simpa using hhit)
        (fun j hj hjm => by
          have := hfirst (j + 1) (by simpa using hj) (by omega)
          simpa using this)
      rw [findCurrentPos, if_neg (by simp [hd]), if_neg hdne, hrest]
      congr 1
      omega

/-- When no node equals the target, the `current_pos` loop leaves
`current_pos` at its initial value `0` (provided every node casts to
`HtmlElement`, so no panic fires). -/
theorem findCurrentPos_miss (tid : Nat) (l : List DomNode) :
    ∀ k : Nat, (∀ d ∈ l, d.isHtmlElement = true) →
      (∀ d ∈ l, d.nodeId ≠ tid) →
      findCurrentPos tid k l = .ok 0 := by
  induction l with
  | nil => intro k _ _; rfl
  | cons d rest ih =>
    intro k hall hmiss
    have hd : d.isHtmlElement = true := hall d (by simp)
    have hdne : d.nodeId ≠ tid := hmiss d (by simp)
    rw [findCurrentPos, if_neg (by simp [hd]), if_neg hdne]
    exact ih (k + 1) (fun x hx => hall x (by simp [hx]))
      (fun x hx => hmiss x (by simp [hx]))

/-- Wraparound arithmetic for `ArrowDown` (the `current_pos >= n - 1`
guard, simp-normalized to `n <= current_pos + 1`). -/
theorem nextDown_mod (i n : Nat) (h1 : i < n) :
    (if n ≤ i + 1 then 0 else i + 1) = (i + 1) % n := by
  rcases Nat.lt_or_ge (i + 1) n with h | h
  · rw [if_neg (by omega), Nat.mod_eq_of_lt (by omega)]
  · have hi : i + 1 = n := by omega
    rw [if_pos (by omega), hi, Nat.mod_self]

/-- Wraparound arithmetic for `ArrowUp`. -/
theorem nextUp_mod (i n : Nat) (h1 : i < n) :
    (if i = 0 then n - 1 else i - 1) = (i + n - 1) % n := by
  rcases Nat.eq_zero_or_pos i with h | h
  · subst h
    rw [if_pos rfl, Nat.zero_add, Nat.mod_eq_of_lt (by omega)]
  · rw [if_neg (by omega)]
    have h2 : i + n - 1 = (i - 1) + n := by omega
    rw [h2, Nat.add_mod_right, Nat.mod_eq_of_lt (by omega)]

/-- Behaviour of the navigation tail when `current_pos` resolves to `i`
and every focusable casts to `HtmlElement`: focus moves to the
wraparound neighbour and nothing panics. -/
theorem arrowNavigate_focusTo (focusables : List DomNode) (tid : Nat)
    (up : Bool) (i : Nat)
    (hall : ∀ d ∈ focusables, d.isHtmlElement = true)
    (hi : i < focusables.length)
    (hfind : findCurrentPos tid 0 focusables = .ok i) :
    arrowNavigate focusables tid up
      = { defaultPrevented := true, closeRequest := none
          focusTo := some (if up then
              if i = 0 then focusables.length - 1 else i - 1
            else
              if i ≥ focusables.length - 1 then 0 else i + 1)
          panicMsg := none } := by
  have hn : ¬ focusables.length = 0 := by omega
  have hmem : ∀ (m : Nat) (hm : m < focusables.length),
      focusables[m]? = some focusables[m]
      ∧ focusables[m].isHtmlElement = true :=
    fun m hm => ⟨List.getElem?_eq_getElem hm,
      hall _ (by simp)⟩
  cases up with
  | true =>
    by_cases hc : i = 0
    · have hm : focusables.length - 1 < focusables.length := by omega
      obtain ⟨hg, hf⟩ := hmem _ hm
      simp [arrowNavigate, hfind, hn, hc, hg, hf]
    · have hm : i - 1 < focusables.length := by omega
      obtain ⟨hg, hf⟩ := hmem _ hm
      simp [arrowNavigate, hfind, hn, hc, hg, hf]
  | false =>
    by_cases hc : i ≥ focusables.length - 1
    · have hm : 0 < focusables.length := by omega
      obtain ⟨hg, hf⟩ := hmem _ hm
      simp [arrowNavigate, hfind, hn, hc, hg, hf]
    · have hm : i + 1 < focusables.length := by omega
      obtain ⟨hg, hf⟩ := hmem _ hm
      simp [arrowNavigate, hfind, hn, hc, hg, hf]

/-- `ArrowDown` moves focus to the wraparound successor. -/
theorem arrowNavigate_down (focusables : List DomNode) (tid i : Nat)
    (hall : ∀ d ∈ focusables, d.isHtmlElement = true)
    (hi : i < focusables.length)
    (hfind : findCurrentPos tid 0 focusables = .ok i) :
    arrowNavigate focusables tid false
      = { defaultPrevented := true, closeRequest := none
          focusTo := some ((i + 1) % focusables.length), panicMsg := none } := by
  rw [arrowNavigate_focusTo focusables tid false i hall hi hfind]
  simp [nextDown_mod i focusables.length hi]

/-- `ArrowUp` moves focus to the wraparound predecessor. -/
theorem arrowNavigate_up (focusables : List DomNode) (tid i : Nat)
    (hall : ∀ d ∈ focusables, d.isHtmlElement = true)
    (hi : i < focusables.length)
    (hfind : findCurrentPos tid 0 focusables = .ok i) :
    arrowNavigate focusables tid true
      = { defaultPrevented := true, closeRequest := none
          focusTo := some ((i + focusables.length - 1) % focusables.length)
          panicMsg := none } := by
  rw [arrowNavigate_focusTo focusables tid true i hall hi hfind]
  simp [nextUp_mod i focusables.length hi]

/-- On a shown dropdown, an arrow key on a non-input `HtmlElement`
target reaches the navigation tail. -/
theorem onkeydownD_to_navigate (dId : Nat) (focusables : List DomNode)
    (t : DomNode) (key : String)
    (ht : t.isHtmlElement = true) (hti : t.isInput = false)
    (hta : t.isTextArea = false)
    (hesc : eqIgnoreAsciiCase key "Escape" = false)
    (harr : (eqIgnoreAsciiCase key "ArrowDown"
      || eqIgnoreAsciiCase key "ArrowUp") = true) :
    onkeydownD true (some dId) focusables { key := key, target := some t }
      = arrowNavigate focusables t.nodeId (eqIgnoreAsciiCase key "ArrowUp") := by
  simp [onkeydownD, ht, hti, hta, hesc, harr]

/-- C2: on a shown `DropdownMenu` whose focusables are all
`HtmlElement`s, with the event target being the item first matched at
index `i`, `ArrowDown` focuses item `(i + 1) % n` and `ArrowUp` focuses
item `(i + n - 1) % n` (that is, `(i - 1) mod n`), wrapping at both
ends; when the target is not among the items, traversal starts from
index 0: `ArrowDown` focuses `(0 + 1) % n` and `ArrowUp` focuses
`(0 + n - 1) % n`. -/
theorem dropdown_arrow_navigation (focusables : List DomNode)
    (t : DomNode) (i dId : Nat)
    (hall : ∀ d ∈ focusables, d.isHtmlElement = true)
    (ht : t.isHtmlElement = true) (hti : t.isInput = false)
    (hta : t.isTextArea = false)
    (hi : i < focusables.length)
    (hhit : focusables[i].nodeId = t.nodeId)
    (hfirst : ∀ j (hj : j < focusables.length), j < i →
        focusables[j].nodeId ≠ t.nodeId) :
    (onkeydownD true (some dId) focusables
        { key := "ArrowDown", target := some t }).focusTo
      = some ((i + 1) % focusables.length)
    ∧ (onkeydownD true (some dId) focusables
        { key := "ArrowUp", target := some t }).focusTo
      = some ((i + focusables.length - 1) % focusables.length)
    ∧ ∀ u : DomNode, u.isHtmlElement = true → u.isInput = false →
        u.isTextArea = false →
        (∀ d ∈ focusables, d.nodeId ≠ u.nodeId) →
        (onkeydownD true (some dId) focusables
            { key := "ArrowDown", target := some u }).focusTo
          = some ((0 + 1) % focusables.length)
        ∧ (onkeydownD true (some dId) focusables
            { key := "ArrowUp", target := some u }).focusTo
          = some ((0 + focusables.length - 1) % focusables.length) := by
  have hfind : findCurrentPos t.nodeId 0 focusables = .ok i := by
    have h := findCurrentPos_spec t.nodeId focusables 0 i hall hi hhit hfirst
    simpa using h
  refine ⟨?_, ?_, ?_⟩
  · rw [onkeydownD_to_navigate dId focusables t "ArrowDown" ht hti hta
      (by decide) (by decide)]
    have hup : eqIgnoreAsciiCase "ArrowDown" "ArrowUp" = false := by decide
    rw [hup, arrowNavigate_down focusables t.nodeId i hall hi hfind]
  · rw [onkeydownD_to_navigate dId focusables t "ArrowUp" ht hti hta
      (by decide) (by decide)]
    have hup : eqIgnoreAsciiCase "ArrowUp" "ArrowUp" = true := by decide
    rw [hup, arrowNavigate_up focusables t.nodeId i hall hi hfind]
  · intro u hu hui huta hmiss
    have h0 : 0 < focusables.length := by omega
    have hfindm : findCurrentPos u.nodeId 0 focusables = .ok 0 :=
      findCurrentPos_miss u.nodeId focusables 0 hall hmiss
    constructor
    · rw [onkeydownD_to_navigate dId focusables u "ArrowDown" hu hui huta
        (by decide) (by decide)]
      have hup : eqIgnoreAsciiCase "ArrowDown" "ArrowUp" = false := by decide
      rw [hup, arrowNavigate_down focusables u.nodeId 0 hall h0 hfindm]
    · rw [onkeydownD_to_navigate dId focusables u "ArrowUp" hu hui huta
        (by decide) (by decide)]
      have hup : eqIgnoreAsciiCase "ArrowUp" "ArrowUp" = true := by decide
      rw [hup, arrowNavigate_up focusables u.nodeId 0 hall h0 hfindm]

/-- Witness for C2: in a two-item menu with focus on the second item,
`ArrowDown` wraps to the first item. -/
theorem dropdown_arrow_navigation_witness :
    (onkeydownD true (some 0)
        [⟨10, true, false, false⟩, ⟨11, true, false, false⟩]
        { key := "ArrowDown", target := some ⟨11, true, false, false⟩ }).focusTo
      = some ((1 + 1) % 2) := by
  have h := dropdown_arrow_navigation
    [⟨10, true, false, false⟩, ⟨11, true, false, false⟩]
    ⟨11, true, false, false⟩ 1 0
    (by decide) rfl rfl rfl (by decide) (by decide) (by decide)
  simpa using h.1

/-- C8: the keydown handler is not total: an arrow keydown on a shown
dropdown with zero enabled `.dropdown-item` elements panics
(`"no focusables"`), and so does one whose matched item is not an
`HtmlElement`; additionally, when the event target is an input or
textarea element, every non-Escape key (arrow keys included) is
ignored while Escape is still handled. -/
theorem dropdown_keydown_partiality :
    ((onkeydownD true (some 0) []
        { key := "ArrowDown", target := some ⟨1, true, false, false⟩ }).panicMsg
      = some "no focusables")
    ∧ ((onkeydownD true (some 0) [⟨2, false, false, false⟩]
        { key := "ArrowDown", target := some ⟨1, true, false, false⟩ }).panicMsg
      = some "not html element? 0")
    ∧ (∀ (shown : Bool) (de : Option Nat) (fs : List DomNode) (k : String)
        (t : DomNode), t.isInput = true ∨ t.isTextArea = true →
        eqIgnoreAsciiCase k "Escape" = false →
        onkeydownD shown de fs { key := k, target := some t } = ignoredResult)
    ∧ ((onkeydownD true (some 0) []
        { key := "Escape", target := some ⟨1, true, true, false⟩ }).closeRequest
      = some DropdownCloseRequest.escapeKey)
    ∧ ((onkeydownD true (some 0) []
        { key := "Escape", target := some ⟨1, true, false, true⟩ }).closeRequest
      = some DropdownCloseRequest.escapeKey) := by
  refine ⟨by decide, by decide, ?_, by decide, by decide⟩
  intro shown de fs k t hit hesc
  cases shown with
  | false => rfl
  | true =>
    by_cases hh : t.isHtmlElement = false
    · simp [onkeydownD, hh]
    · rcases hit with h | h <;> simp [onkeydownD, hh, h, hesc]

/-- Witness for C8: an `ArrowDown` keydown on a textarea target and an
`ArrowUp` keydown on an input target are both ignored. -/
theorem dropdown_keydown_partiality_witness :
    onkeydownD true (some 0) []
        { key := "ArrowDown", target := some ⟨1, true, false, true⟩ }
      = ignoredResult
    ∧ onkeydownD true (some 0) []
        { key := "ArrowUp", target := some ⟨1, true, true, false⟩ }
      = ignoredResult :=
  ⟨dropdown_keydown_partiality.2.2.1 true (some 0) [] "ArrowDown"
     ⟨1, true, false, true⟩ (Or.inr rfl) (by decide),
   dropdown_keydown_partiality.2.2.1 true (some 0) [] "ArrowUp"
     ⟨1, true, true, false⟩ (Or.inl rfl) (by decide)⟩

/-- The navigation tail never emits a close request. -/
theorem arrowNavigate_closeRequest_none (fs : List DomNode) (tid : Nat)
    (up : Bool) : (arrowNavigate fs tid up).closeRequest = none := by
  unfold arrowNavigate
  dsimp only
  repeat' split
  all_goals rfl

/-- Every run of the keydown handler either emits no close request, or
emits `EscapeKey` with the menu shown, the default prevented, and the
key equal (ASCII-case-insensitively) to `Escape`. -/
theorem onkeydownD_closeRequest_cases (shown : Bool) (de : Option Nat)
    (fs : List DomNode) (evt : KeyboardEvt) :
    (onkeydownD shown de fs evt).closeRequest = none
    ∨ ((onkeydownD shown de fs evt).closeRequest
        = some DropdownCloseRequest.escapeKey
      ∧ shown = true
      ∧ (onkeydownD shown de fs evt).defaultPrevented = true
      ∧ eqIgnoreAsciiCase evt.key "Escape" = true) := by
  cases shown with
  | false => exact Or.inl (by simp [onkeydownD, ignoredResult])
  | true =>
    cases hT : evt.target with
    | none => exact Or.inl (by simp [onkeydownD, hT, ignoredResult])
    | some t =>
      by_cases hH : t.isHtmlElement = false
      · exact Or.inl (by simp [onkeydownD, hT, hH, ignoredResult])
      · by_cases hEsc : eqIgnoreAsciiCase evt.key "Escape" = true
        · have hred : onkeydownD true de fs evt
              = { defaultPrevented := true
                  closeRequest := some DropdownCloseRequest.escapeKey
                  focusTo := none, panicMsg := none } := by
            by_cases hIT : (t.isInput || t.isTextArea) = true
            · simp [onkeydownD, hT, hH, hIT, hEsc]
            · simp [onkeydownD, hT, hH, hIT, hEsc]
          exact Or.inr ⟨by rw [hred], rfl, by rw [hred], hEsc⟩
        · have hEsc2 : eqIgnoreAsciiCase evt.key "Escape" = false := by
            cases hx : eqIgnoreAsciiCase evt.key "Escape"
            · rfl
            · exact absurd hx hEsc
          by_cases hIT : (t.isInput || t.isTextArea) = true
          · exact Or.inl
              (by simp [onkeydownD, hT, hH, hIT, hEsc2, ignoredResult])
          · by_cases hA : (eqIgnoreAsciiCase evt.key "ArrowDown"
              || eqIgnoreAsciiCase evt.key "ArrowUp") = false
            · exact Or.inl
                (by simp [onkeydownD, hT, hH, hIT, hEsc2, hA, ignoredResult])
            · cases de with
              | none =>
                exact Or.inl (by simp [onkeydownD, hT, hH, hIT, hEsc2, hA])
              | some d =>
                refine Or.inl ?_
                have hred : onkeydownD true (some d) fs evt
                    = arrowNavigate fs t.nodeId
                        (eqIgnoreAsciiCase evt.key "ArrowUp") := by
                  simp [onkeydownD, hT, hH, hIT, hEsc2, hA]
                rw [hred, arrowNavigate_closeRequest_none]

/-- C9: the dropdown never emits `DropdownCloseRequest::Click`: the
keydown handler only ever emits `EscapeKey` (with the menu shown and
the event's default prevented), the focusout handler only ever emits
`FocusLoss`, and it does so exactly when there is no related target or
the related target is a node that is neither the dropdown element nor
contained in it. -/
theorem dropdown_close_request_kinds :
    (∀ (de : Option Nat) (rt : Option RelatedTarget),
        onfocusoutD de rt ≠ some DropdownCloseRequest.click)
    ∧ (∀ (shown : Bool) (de : Option Nat) (fs : List DomNode)
        (evt : KeyboardEvt),
        (onkeydownD shown de fs evt).closeRequest
          ≠ some DropdownCloseRequest.click)
    ∧ (∀ (shown : Bool) (de : Option Nat) (fs : List DomNode)
        (evt : KeyboardEvt),
        (onkeydownD shown de fs evt).closeRequest
            = some DropdownCloseRequest.escapeKey →
        shown = true
        ∧ (onkeydownD shown de fs evt).defaultPrevented = true
        ∧ eqIgnoreAsciiCase evt.key "Escape" = true)
    ∧ (∀ (dId : Nat) (rt : Option RelatedTarget),
        onfocusoutD (some dId) rt
          = match rt with
            | none => some DropdownCloseRequest.focusLoss
            | some u =>
              if u.isNode = true ∧ u.nodeId ≠ dId
                  ∧ u.containedInDropdown = false
              then some DropdownCloseRequest.focusLoss else none) := by
  have hfo : ∀ (dId : Nat) (rt : Option RelatedTarget),
      onfocusoutD (some dId) rt
        = match rt with
          | none => some DropdownCloseRequest.focusLoss
          | some u =>
            if u.isNode = true ∧ u.nodeId ≠ dId
                ∧ u.containedInDropdown = false
            then some DropdownCloseRequest.focusLoss else none := by
    intro dId rt
    cases rt with
    | none => rfl
    | some u =>
      by_cases h1 : u.isNode = false
      · have h1t : ¬ u.isNode = true := by simp [h1]
        simp [onfocusoutD, h1, h1t]
      · have h1t : u.isNode = true := by
          cases hx : u.isNode
          · exact absurd hx h1
          · rfl
        by_cases h2 : u.nodeId ≠ dId ∧ u.containedInDropdown = false
        · simp [onfocusoutD, h1, h1t, h2]
        · simp [onfocusoutD, h1, h1t, h2]
  refine ⟨?_, ?_, ?_, hfo⟩
  · intro de rt
    cases de with
    | none => simp [onfocusoutD]
    | some dId =>
      rw [hfo]
      cases rt with
      | none => simp
      | some u => split <;> simp
  · intro shown de fs evt
    rcases onkeydownD_closeRequest_cases shown de fs evt with h | ⟨h, _⟩ <;>
      simp [h]
  · intro shown de fs evt h
    rcases onkeydownD_closeRequest_cases shown de fs evt with h0 | ⟨_, h2, h3, h4⟩
    · rw [h0] at h
      exact absurd h (by simp)
    · exact ⟨h2, h3, h4⟩

/-- Witness for C9: on a focusout with no related target the handler
emits `FocusLoss` (not `Click`), and a shown-menu Escape keydown emits
`EscapeKey` with the default prevented. -/
theorem dropdown_close_request_kinds_witness :
    onfocusoutD (some 5) none ≠ some DropdownCloseRequest.click
    ∧ (onkeydownD true (some 5) []
        { key := "x", target := none }).closeRequest
        ≠ some DropdownCloseRequest.click
    ∧ (true = true
      ∧ (onkeydownD true (some 5) []
          { key := "Escape", target := some ⟨1, true, false, false⟩ }).defaultPrevented
          = true
      ∧ eqIgnoreAsciiCase "Escape" "Escape" = true) :=
  ⟨dropdown_close_request_kinds.1 (some 5) none,
   dropdown_close_request_kinds.2.1 true (some 5) [] _,
   dropdown_close_request_kinds.2.2.1 true (some 5) []
     { key := "Escape", target := some ⟨1, true, false, false⟩ } (by decide)⟩

end YewBootstrap
